import Mathlib

/-!
Verification of the pylgtv `WebOsClient` (src/pylgtv/webos_client.py) against
its natural-language specification.

The client is embedded shallowly: the filesystem and the websocket are
external collaborators, so the key file is modelled by the observable cases
the code branches on (missing, empty, valid JSON dictionary, invalid JSON)
and a socket by the list of frames its recv calls will yield in order.
Python dictionaries of string keys and string values become association
lists; a Python value that may be None becomes an Option.
-/

namespace PyLGTV

/-- Observable state of the key file on disk, as `load_key_file` and
`save_key_file` distinguish it: `os.path.isfile` false (missing), a file
whose read yields an empty string, a file holding a valid JSON object of
host-to-credential pairs, or a non-empty file that `json.loads` rejects. -/
inductive RawFile where
  | missing
  | emptyFile
  | valid (d : List (String × String))
  | corrupt
deriving DecidableEq, Repr

/-- Errors that escape the Python functions as exceptions. -/
inductive PyError where
  | valueError      -- json.loads on invalid input
  | keyError (k : String)  -- dictionary access on a missing key
  | connectionClosed       -- websocket.recv on a closed connection
deriving DecidableEq, Repr

/-- load_key_file, webos_client.py lines 43-59: resolve the credential for
`ip` from the key file. Missing file or empty read leaves the dictionary
empty; a non-empty unparsable file raises ValueError out of json.loads.
The file itself is only opened for reading and is never written. -/
def load_key_file (ip : String) (file : RawFile) : Except PyError (Option String) :=
  match file with
  | .missing => .ok none
  | .emptyFile => .ok none
  | .valid d => .ok (d.lookup ip)
  | .corrupt => .error .valueError

/-- save_key_file, webos_client.py lines 61-80: returns immediately when no
client key is held. Otherwise the file is opened with mode w+, which
truncates it before the `f.read()`, so `raw_data` is always empty, the
merge dictionary always starts empty, and the file ends up holding exactly
the one pair for this ip. -/
def save_key_file (ip : String) (client_key : Option String) (file : RawFile) : RawFile :=
  match client_key with
  | none => file
  | some key => RawFile.valid [(ip, key)]

/-- KEY_FILE_NAME, webos_client.py line 9. -/
def KEY_FILE_NAME : String := ".pylgtv"

/-- The process environment observed by `_get_key_file_path`: the HOME
environment variable (None when unset), whether `os.access(HOME, W_OK)`
holds, and the current working directory. -/
structure Env where
  home : Option String
  homeWritable : Bool
  cwd : String
deriving DecidableEq, Repr

/-- os.path.join for two POSIX path components. -/
def pathJoin (a b : String) : String :=
  if b.startsWith "/" then b
  else if a = "" ∨ a.endsWith "/" then a ++ b
  else a ++ "/" ++ b

/-- _get_key_file_path, webos_client.py lines 34-41: HOME joined with the
key file name when HOME is set and writable, else the current working
directory joined with the key file name. -/
def _get_key_file_path (e : Env) : String :=
  match e.home with
  | some h =>
      if e.homeWritable then pathJoin h KEY_FILE_NAME
      else pathJoin e.cwd KEY_FILE_NAME
  | none => pathJoin e.cwd KEY_FILE_NAME

/-- Path resolution in load_key_file, webos_client.py lines 46-49:
`if self.key_file_path:` is a Python truthiness test, so None and the
empty string both fall through to `_get_key_file_path`. -/
def resolve_path_load (key_file_path : Option String) (e : Env) : String :=
  match key_file_path with
  | some p => if p = "" then _get_key_file_path e else p
  | none => _get_key_file_path e

/-- Path resolution in save_key_file, webos_client.py lines 66-69: the same
truthiness test, duplicated in the source. -/
def resolve_path_save (key_file_path : Option String) (e : Env) : String :=
  match key_file_path with
  | some p => if p = "" then _get_key_file_path e else p
  | none => _get_key_file_path e

/-- A frame received from the television: its type field, its id field if
any, and its payload object restricted to string values, the only ones the
client ever reads from a received payload. -/
structure Frame where
  ftype : String
  fid : Option String
  payload : List (String × String)
deriving DecidableEq, Repr

/-- A JSON scalar the client puts into an outgoing payload. -/
inductive PayloadVal where
  | str (s : String)
  | int (n : Int)
  | bool (b : Bool)
deriving DecidableEq, Repr

/-- An outgoing command message as built by `command`. -/
structure Msg where
  id : String
  mtype : String
  uri : String
  payload : List (String × PayloadVal)
deriving DecidableEq, Repr

/-- A frame written to the websocket: either the register handshake, the
static manifest with its client-key field set to the current client key
(possibly None), or a command message. -/
inductive OutFrame where
  | register (clientKey : Option String)
  | message (m : Msg)
deriving DecidableEq, Repr

/-- The client state the register exchange reads and writes: the in-memory
client key and the key file on disk. -/
structure RegState where
  client_key : Option String
  file : RawFile
deriving DecidableEq, Repr

/-- _send_register_payload, webos_client.py lines 82-103, applied to the
list of frames the socket will deliver. The handshake frame is sent, one
reply is received; only when that reply has type response and its payload
field pairingType (a KeyError if absent) equals PROMPT is a second frame
awaited, and only a second frame of type registered updates the client key
and saves the key file. Every other first-reply type, an error frame
included, falls through and the function returns with the state unchanged.
Receiving on an exhausted stream models recv raising on a closed socket.
The result carries the frames not consumed. -/
def _send_register_payload (ip : String) (s : RegState) (frames : List Frame) :
    Except PyError (RegState × List Frame) :=
  match frames with
  | [] => .error .connectionClosed
  | r1 :: rest =>
    if r1.ftype = "response" then
      match r1.payload.lookup "pairingType" with
      | none => .error (.keyError "pairingType")
      | some pt =>
        if pt = "PROMPT" then
          match rest with
          | [] => .error .connectionClosed
          | r2 :: rest2 =>
            if r2.ftype = "registered" then
              match r2.payload.lookup "client-key" with
              | none => .error (.keyError "client-key")
              | some key =>
                .ok (⟨some key, save_key_file ip (some key) s.file⟩, rest2)
            else .ok (s, rest2)
        else .ok (s, rest)
    else .ok (s, rest)

/-- An exception escaping `_command`, together with the frames that had
been written to the socket before it was raised. The pairException case
models `raise PyLGTVPairException("Unable to pair")`; the source passes one
argument to the two-argument constructor, so at runtime a TypeError is
raised in its place, but either way an exception propagates and no further
frame is sent. -/
inductive CmdError where
  | py (e : PyError) (sent : List OutFrame)
  | pairException (sent : List OutFrame)
deriving DecidableEq, Repr

/-- The outcome of a completed `_command`: the state after the register
exchange, the frame stored into last_response if the message was a
request, and the frames written to the socket in order. -/
structure CmdResult where
  state : RegState
  last_response : Option Frame
  sent : List OutFrame
deriving DecidableEq, Repr

/-- The frames `_command` wrote to the socket, whether it returned or
raised. -/
def sentOf : Except CmdError CmdResult → List OutFrame
  | .ok r => r.sent
  | .error (.py _ s) => s
  | .error (.pairException s) => s

/-- Python truthiness of an optional string: None and the empty string are
falsy. -/
def pyTruthy : Option String → Bool
  | none => false
  | some s => s != ""

/-- _command, webos_client.py lines 135-153, applied to the frames the
fresh connection for this one command will deliver. It always runs the
register exchange first, then checks `if not self.client_key` (Python
truthiness), raising before the command message is written when no
non-empty key is held; otherwise it writes the message and, for a request,
stores the next received frame as last_response without examining its id. -/
def _command (ip : String) (s : RegState) (msg : Msg) (frames : List Frame) :
    Except CmdError CmdResult :=
  let sent0 : List OutFrame := [.register s.client_key]
  match _send_register_payload ip s frames with
  | .error e => .error (.py e sent0)
  | .ok (s1, rest) =>
    if pyTruthy s1.client_key then
      let sent1 := sent0 ++ [.message msg]
      if msg.mtype = "request" then
        match rest with
        | [] => .error (.py .connectionClosed sent1)
        | r :: _ => .ok ⟨s1, some r, sent1⟩
      else .ok ⟨s1, none, sent1⟩
    else .error (.pairException sent0)

/-- Decimal rendering of a natural number, as str formats a Python int:
the base-ten digits, most significant first. -/
def decRepr (n : Nat) : String :=
  if n = 0 then "0" else ((Nat.digits 10 n).reverse.map Nat.digitChar).asString

/-- The id of the message built by `command`, webos_client.py line 163.
The format string interpolates the Python builtin `type` rather than the
request_type argument, so the first field is the str rendering of that
builtin, the class marker below, followed by an underscore and the
incremented command counter. -/
def command_id (count : Nat) : String := "<class \x27type\x27>_" ++ decRepr count

/-- Modelled from the spec: handshake frames use a reserved fixed id. The
manifest file handshake.json is not under src/; in the repository it sets
the id field to register_0. -/
def handshake_id : String := "register_0"

/-- command, webos_client.py lines 155-167: increments the counter,
defaults a missing payload to the empty object, and builds the message
with the ssap scheme prepended to the endpoint. -/
def command_msg (request_type uri : String)
    (payload : Option (List (String × PayloadVal))) (command_count : Nat) : Msg :=
  ⟨command_id (command_count + 1), request_type, "ssap://" ++ uri, payload.getD []⟩

/-- Modelled from the spec: the catalog of device endpoint URIs
(endpoints.py) is static configuration outside the core source; this is
the set-volume endpoint constant it provides. -/
def EP_SET_VOLUME : String := "audio/setVolume"

/-- set_volume, webos_client.py lines 275-280: clamps the volume below at
zero with max, then sends a request whose payload carries the clamped
value. -/
def set_volume_msg (command_count : Nat) (volume : Int) : Msg :=
  command_msg "request" EP_SET_VOLUME
    (some [("volume", PayloadVal.int (max 0 volume))]) command_count

/-- The volume value an outgoing message carries, when it carries one. -/
def sentVolume (m : Msg) : Option Int :=
  match m.payload.lookup "volume" with
  | some (.int v) => some v
  | _ => none

end PyLGTV

namespace PyLGTV

/-- Claim C9: when no client key is held, `save_key_file` returns at once
and the persisted key file is unchanged. -/
theorem save_key_file_no_key_noop (ip : String) (file : RawFile) :
    save_key_file ip none file = file := rfl

/-- Claim C2, evaluation at the failing input: with the file holding a
credential for host B, saving a credential for host A yields a file that
holds only the pair for A, and a subsequent load for B finds nothing.
The w+ open mode truncates the file before the merge-read, so the read
sees an empty file and host B's previously stored credential is erased. -/
theorem save_key_file_clobbers_other_host :
    save_key_file "A" (some "credA") (RawFile.valid [("B", "credB")])
        = RawFile.valid [("A", "credA")]
    ∧ load_key_file "B"
        (save_key_file "A" (some "credA") (RawFile.valid [("B", "credB")]))
        = .ok none := by
  exact ⟨rfl, rfl⟩

/-- Claim C5, counterexample: on a non-empty file that is not valid JSON,
`load_key_file` does not treat the store as empty; the ValueError from
json.loads propagates to the caller. -/
theorem load_key_file_corrupt_raises :
    load_key_file "10.0.0.5" RawFile.corrupt = .error PyError.valueError
    ∧ load_key_file "10.0.0.5" RawFile.corrupt ≠ .ok none := by
  exact ⟨rfl, fun h => nomatch h⟩

/-- Claim C5, amended: loading never writes the file (structurally: the
function only maps the observed file contents to a credential), a missing
file and an empty file are both treated as an empty store yielding no
credential and no error; only a non-empty unparsable file raises. -/
theorem load_key_file_missing_or_empty_ok (ip : String) :
    load_key_file ip RawFile.missing = .ok none
    ∧ load_key_file ip RawFile.emptyFile = .ok none := ⟨rfl, rfl⟩

/-- Claim C7: loading and saving resolve the key file location by the same
rule, and the rule is a fixed precedence: a non-empty explicitly configured
path wins; otherwise HOME joined with the key file name when HOME is set
and writable; otherwise the current working directory joined with the key
file name. -/
theorem key_file_path_precedence (kfp : Option String) (e : Env) :
    resolve_path_load kfp e = resolve_path_save kfp e
    ∧ (∀ p, kfp = some p → p ≠ "" → resolve_path_load kfp e = p)
    ∧ ((kfp = none ∨ kfp = some "") → ∀ h, e.home = some h →
        e.homeWritable = true → resolve_path_load kfp e = pathJoin h KEY_FILE_NAME)
    ∧ ((kfp = none ∨ kfp = some "") → (e.home = none ∨ e.homeWritable = false) →
        resolve_path_load kfp e = pathJoin e.cwd KEY_FILE_NAME) := by
  refine ⟨rfl, ?_, ?_, ?_⟩
  · rintro p rfl hp
    simp [resolve_path_load, hp]
  · rintro (rfl | rfl) h hh hw <;>
      simp [resolve_path_load, _get_key_file_path, hh, hw]
  · rintro (rfl | rfl) (hn | hw) <;>
      cases he : e.home <;>
      simp_all [resolve_path_load, _get_key_file_path]

/-- Witness for `key_file_path_precedence`: an explicitly configured
non-empty path is used as-is even when HOME is set and writable. -/
theorem key_file_path_precedence_witness :
    resolve_path_load (some "/etc/lgtv-keys") ⟨some "/home/u", true, "/work"⟩
      = "/etc/lgtv-keys" :=
  (key_file_path_precedence (some "/etc/lgtv-keys")
      ⟨some "/home/u", true, "/work"⟩).2.1 "/etc/lgtv-keys" rfl (by decide)

/-- Two strings with equal character data are equal. -/
theorem string_data_eq : ∀ {s t : String}, s.data = t.data → s = t := by
  intro s t h
  cases s
  cases t
  cases h
  rfl

/-- Nat.digitChar is injective below ten. -/
theorem digitChar_injOn : ∀ a < 10, ∀ b < 10,
    Nat.digitChar a = Nat.digitChar b → a = b := by decide

/-- Mapping Nat.digitChar over lists of digits below ten is injective. -/
theorem map_digitChar_inj : ∀ (l1 l2 : List Nat), (∀ d ∈ l1, d < 10) →
    (∀ d ∈ l2, d < 10) → l1.map Nat.digitChar = l2.map Nat.digitChar → l1 = l2 := by
  intro l1
  induction l1 with
  | nil => intro l2 _ _ h; cases l2 <;> simp_all
  | cons a t ih =>
    intro l2 h1 h2 h
    cases l2 with
    | nil => simp_all
    | cons b t2 =>
      rw [List.map_cons, List.map_cons] at h
      have hab := digitChar_injOn a (h1 a (by simp)) b (h2 b (by simp))
        (List.head_eq_of_cons_eq h)
      have htt := ih t2 (fun d hd => h1 d (by simp [hd]))
        (fun d hd => h2 d (by simp [hd])) (List.tail_eq_of_cons_eq h)
      rw [hab, htt]

/-- A positive number never renders as the single zero digit. -/
theorem decRepr_pos_ne_zero_str {m : Nat} (hm : m ≠ 0) :
    ((Nat.digits 10 m).reverse.map Nat.digitChar).asString ≠ "0" := by
  intro h
  have h3 : (Nat.digits 10 m).reverse.map Nat.digitChar = ['0'] := List.asString_eq.mp h
  cases hrev : (Nat.digits 10 m).reverse with
  | nil => rw [hrev] at h3; exact absurd h3 (by simp)
  | cons d t =>
    rw [hrev, List.map_cons] at h3
    have hd : Nat.digitChar d = '0' := List.head_eq_of_cons_eq h3
    have htnil : t = [] := List.map_eq_nil_iff.mp (List.tail_eq_of_cons_eq h3)
    have hdmem : d ∈ Nat.digits 10 m := by
      rw [← List.mem_reverse, hrev]
      exact List.mem_cons_self d t
    have hd0 : d = 0 := digitChar_injOn d (Nat.digits_lt_base (by norm_num) hdmem)
      0 (by norm_num) (by rw [hd]; rfl)
    have hdig : Nat.digits 10 m = [0] := by
      have h4 := congrArg List.reverse hrev
      rw [List.reverse_reverse] at h4
      rw [h4, htnil, hd0]
      rfl
    have h5 := Nat.ofDigits_digits 10 m
    rw [hdig] at h5
    simp [Nat.ofDigits] at h5
    omega

/-- The decimal rendering of a natural number is injective. -/
theorem decRepr_injective : Function.Injective decRepr := by
  intro n m h
  unfold decRepr at h
  by_cases hn : n = 0 <;> by_cases hm : m = 0
  · rw [hn, hm]
  · rw [if_pos hn, if_neg hm] at h
    exact absurd h.symm (decRepr_pos_ne_zero_str hm)
  · rw [if_neg hn, if_pos hm] at h
    exact absurd h (decRepr_pos_ne_zero_str hn)
  · rw [if_neg hn, if_neg hm] at h
    have h2 := List.asString_inj.mp h
    have hb1 : ∀ d ∈ (Nat.digits 10 n).reverse, d < 10 := fun d hd =>
      Nat.digits_lt_base (by norm_num) (List.mem_reverse.mp hd)
    have hb2 : ∀ d ∈ (Nat.digits 10 m).reverse, d < 10 := fun d hd =>
      Nat.digits_lt_base (by norm_num) (List.mem_reverse.mp hd)
    have h3 := map_digitChar_inj _ _ hb1 hb2 h2
    have h4 : Nat.digits 10 n = Nat.digits 10 m := by
      have h5 := congrArg List.reverse h3
      simpa using h5
    exact Nat.digits.injective 10 h4

/-- Generated command ids all start with the class marker character. -/
theorem command_id_head (n : Nat) : (command_id n).data.head? = some '<' := rfl

/-- Distinct counter values yield distinct command ids. -/
theorem command_id_injective : Function.Injective command_id := by
  intro n m h
  apply decRepr_injective
  apply string_data_eq
  have h2 : ("<class \x27type\x27>_" : String).data ++ (decRepr n).data
      = ("<class \x27type\x27>_" : String).data ++ (decRepr m).data :=
    congrArg String.data h
  exact List.append_cancel_left h2

/-- No command id equals the reserved handshake id: the first begins with
the class marker character and the second does not. -/
theorem command_id_ne_handshake_id (n : Nat) : command_id n ≠ handshake_id := by
  intro h
  have h2 : (command_id n).data.head? = handshake_id.data.head? := by rw [h]
  rw [command_id_head n] at h2
  exact absurd h2 (by decide)

/-- Claim C6: for any two distinct commands issued on one client instance
(the counter values differ), the generated correlation ids differ, and no
generated id equals the reserved handshake id. -/
theorem command_ids_distinct (n m : Nat) (h : n ≠ m) :
    command_id n ≠ command_id m ∧ command_id n ≠ handshake_id :=
  ⟨fun hc => h (command_id_injective hc), command_id_ne_handshake_id n⟩

/-- Witness for `command_ids_distinct` at the first two counter values. -/
theorem command_ids_distinct_witness :
    command_id 1 ≠ command_id 2 ∧ command_id 1 ≠ handshake_id :=
  command_ids_distinct 1 2 (by decide)

/-- Claim C10: for every integer input, the message set_volume builds
carries exactly the clamped volume max 0 volume, which is never
negative. -/
theorem set_volume_clamped (command_count : Nat) (volume : Int) :
    sentVolume (set_volume_msg command_count volume) = some (max 0 volume)
    ∧ 0 ≤ max 0 volume :=
  ⟨rfl, le_max_left 0 volume⟩

/-- Claim C1, counterexample: with a stored key and a fast-path register
reply, `_command` stores the next received frame as the response although
that frame carries an id different from the id of the message it sent.
The call resolves with a payload whose frame id does not match its own. -/
theorem correlation_not_checked_cex :
    _command "10.0.0.5" ⟨some "k", RawFile.missing⟩
        (command_msg "request" "system/turnOff" none 0)
        [⟨"registered", none, []⟩, ⟨"response", some "foreign_7", [("x", "1")]⟩]
      = .ok ⟨⟨some "k", RawFile.missing⟩,
             some ⟨"response", some "foreign_7", [("x", "1")]⟩,
             [.register (some "k"),
              .message (command_msg "request" "system/turnOff" none 0)]⟩
    ∧ (command_msg "request" "system/turnOff" none 0).id = command_id 1
    ∧ "foreign_7" ≠ command_id 1 := by
  refine ⟨rfl, rfl, fun h => ?_⟩
  have h2 : ("foreign_7" : String).data.head? = (command_id 1).data.head? := by rw [h]
  rw [command_id_head 1] at h2
  exact absurd h2 (by decide)

/-- Claim C1, amended: a one-shot call resolves with the first frame the
connection delivers after the command message is written, whatever id that
frame carries; ids are never compared. Each command runs on a connection of
its own, so no two calls are ever concurrent on one connection. -/
theorem command_resolves_first_frame (ip : String) (s : RegState) (msg : Msg)
    (frames : List Frame) (s1 : RegState) (r : Frame) (rest2 : List Frame)
    (hreg : _send_register_payload ip s frames = .ok (s1, r :: rest2))
    (hkey : pyTruthy s1.client_key = true) (hreq : msg.mtype = "request") :
    _command ip s msg frames
      = .ok ⟨s1, some r, [.register s.client_key, .message msg]⟩ := by
  unfold _command
  rw [hreg]
  simp only [hkey, if_true, hreq, if_pos]
  rfl

/-- Witness for `command_resolves_first_frame` on a two-frame delivery. -/
theorem command_resolves_first_frame_witness :
    _command "10.0.0.5" ⟨some "key", RawFile.missing⟩
        (command_msg "request" "audio/getVolume" none 3)
        [⟨"registered", none, []⟩, ⟨"response", some "r9", []⟩]
      = .ok ⟨⟨some "key", RawFile.missing⟩, some ⟨"response", some "r9", []⟩,
             [.register (some "key"),
              .message (command_msg "request" "audio/getVolume" none 3)]⟩ :=
  command_resolves_first_frame "10.0.0.5" ⟨some "key", RawFile.missing⟩
    (command_msg "request" "audio/getVolume" none 3)
    [⟨"registered", none, []⟩, ⟨"response", some "r9", []⟩]
    ⟨some "key", RawFile.missing⟩ ⟨"response", some "r9", []⟩ [] rfl rfl rfl

/-- Claim C3, counterexample: the first reply to the register frame has
type error, yet `_send_register_payload` returns normally (the ok branch,
not the error branch of the Except) with the client key and the key file
unchanged: the error frame is swallowed and no failure with the reported
reason is surfaced by the handshake layer. -/
theorem handshake_error_swallowed_cex :
    _send_register_payload "1.2.3.4" ⟨some "oldkey", RawFile.missing⟩
        [⟨"error", none, [("error", "403 access denied")]⟩]
      = .ok (⟨some "oldkey", RawFile.missing⟩, []) := rfl

/-- Claim C3, amended: when the first reply is not of type response — an
error frame included — the handshake returns normally with the state
unchanged; pairing failure is detected only later, by the client-key check
in `_command`. -/
theorem handshake_non_response_ignored (ip : String) (s : RegState)
    (r1 : Frame) (rest : List Frame) (h : ¬ r1.ftype = "response") :
    _send_register_payload ip s (r1 :: rest) = .ok (s, rest) := by
  simp only [_send_register_payload]
  rw [if_neg h]

/-- Witness for `handshake_non_response_ignored` on an error frame. -/
theorem handshake_non_response_ignored_witness :
    _send_register_payload "h" ⟨none, RawFile.missing⟩
        [⟨"error", none, [("reason", "denied")]⟩]
      = .ok (⟨none, RawFile.missing⟩, []) :=
  handshake_non_response_ignored "h" ⟨none, RawFile.missing⟩
    ⟨"error", none, [("reason", "denied")]⟩ [] (by decide)

/-- Claim C4, counterexample: a call on an unpaired client (no client key
held) still writes the register handshake frame to the socket before
failing; the pairing exchange — which can raise a prompt on the television
— is triggered inside the call itself, and the call does not fail before
that exchange. -/
theorem call_sends_register_cex :
    _command "ip" ⟨none, RawFile.missing⟩
        (command_msg "request" "system/turnOff" none 0) [⟨"error", none, []⟩]
      = .error (.pairException [.register none])
    ∧ sentOf (_command "ip" ⟨none, RawFile.missing⟩
        (command_msg "request" "system/turnOff" none 0) [⟨"error", none, []⟩])
      = [.register none] := ⟨rfl, rfl⟩

/-- Claim C4, amended: every call re-sends the register handshake — the
first frame `_command` writes is always the register frame, whether the
call then succeeds or raises. -/
theorem command_always_sends_register (ip : String) (s : RegState) (msg : Msg)
    (frames : List Frame) :
    (sentOf (_command ip s msg frames)).head? = some (.register s.client_key) := by
  unfold _command
  cases _send_register_payload ip s frames with
  | error e => rfl
  | ok p =>
    obtain ⟨s1, rest⟩ := p
    dsimp only
    by_cases hk : pyTruthy s1.client_key
    · rw [if_pos hk]
      by_cases hm : msg.mtype = "request"
      · rw [if_pos hm]
        cases rest <;> rfl
      · rw [if_neg hm]
        rfl
    · rw [if_neg hk]
      rfl

/-- Claim C8: the command message is written only when the register
exchange left a (truthy) client key: when the key is None at the check,
`_command` raises with only the register frame sent, and whenever the
message frame appears among the sent frames, the register exchange
returned a truthy key. -/
theorem command_requires_key (ip : String) (s : RegState) (msg : Msg)
    (frames : List Frame) :
    (∀ s1 rest, _send_register_payload ip s frames = .ok (s1, rest) →
        s1.client_key = none →
        _command ip s msg frames = .error (.pairException [.register s.client_key]))
    ∧ (∀ m, OutFrame.message m ∈ sentOf (_command ip s msg frames) →
        ∃ s1 rest, _send_register_payload ip s frames = .ok (s1, rest) ∧
          pyTruthy s1.client_key = true) := by
  constructor
  · intro s1 rest hreg hnone
    unfold _command
    rw [hreg]
    have hf : pyTruthy s1.client_key = false := by rw [hnone]; rfl
    simp only [hf, Bool.false_eq_true, if_false]
  · intro m hm
    unfold _command at hm
    cases hreg : _send_register_payload ip s frames with
    | error e =>
      rw [hreg] at hm
      simp [sentOf] at hm
    | ok p =>
      obtain ⟨s1, rest⟩ := p
      rw [hreg] at hm
      dsimp only at hm
      by_cases hk : pyTruthy s1.client_key
      · exact ⟨s1, rest, rfl, hk⟩
      · rw [if_neg hk] at hm
        simp [sentOf] at hm

/-- Witness for `command_requires_key`: the register exchange swallows a
hello-typed reply, leaves the key None, and the call raises with only the
register frame sent. -/
theorem command_requires_key_witness :
    _command "ip2" ⟨none, RawFile.missing⟩
        (command_msg "request" "system/notifications/createToast" none 1)
        [⟨"hello", none, []⟩]
      = .error (.pairException [.register none]) :=
  (command_requires_key "ip2" ⟨none, RawFile.missing⟩
      (command_msg "request" "system/notifications/createToast" none 1)
      [⟨"hello", none, []⟩]).1 ⟨none, RawFile.missing⟩ [] rfl rfl

end PyLGTV
